import Mathlib

/-!
Verification development for `demoizer.py`, a single-file tool that rewrites a
captured HTML page into a self-contained static copy: it localizes remote
resources (downloading each distinct URL once into a `resources/` directory and
substituting relative paths), strips `<script>` elements, and neutralizes
hyperlinks.

The development shallowly embeds the program's pure core: the URL resolution
chains of the four rewrite passes, the filename synthesizer
`create_local_filename` (including the MD5-based collision suffix), the
per-job download cache, the CSS `url(...)` extraction regex, the sanitizer,
and the per-job error-handling loop.  Network fetching is modelled by a
success oracle `fetch : String → Bool`; every function that may call the
fetcher additionally returns the list of URLs it passed to it, so that
"no GET is issued" is expressible as an empty (or unchanged) fetch log.

Library collaborators (`urllib.parse`, `os.path`, `hashlib.md5`, `re`,
Python `str` methods) are modelled from their standard documented semantics,
faithfully on the input shapes this program produces; each such definition
carries a note.  Everything else is translated directly from the source.
-/

set_option maxRecDepth 8192
set_option maxHeartbeats 1600000

namespace Demoizer

/-! ### Basic character/string list utilities (Python `str` semantics) -/

/-- `startsL pat s` : does the char list `s` start with `pat`?
Models Python `str.startswith` on the underlying characters. -/
def startsL : List Char → List Char → Bool
  | [], _ => true
  | _ :: _, [] => false
  | p :: ps, c :: cs => p == c && startsL ps cs

/-- String-level `startswith`: `startsWithS s pat` models `s.startswith(pat)`. -/
def startsWithS (s pat : String) : Bool := startsL pat.data s.data

/-- `s.startswith((p1, ..., pn))` — true if any alternative matches. -/
def startsWithAny (s : String) (pats : List String) : Bool :=
  pats.any (fun p => startsWithS s p)

/-- Substring containment on char lists; models Python's `sub in s`. -/
def containsL (sub : List Char) : List Char → Bool
  | [] => sub.isEmpty
  | c :: cs => startsL sub (c :: cs) || containsL sub cs

/-- `containsSub s sub` models Python `sub in s`. -/
def containsSub (s sub : String) : Bool := containsL sub.data s.data

/-- Split a char list at the first occurrence of `c` (the separator is
dropped); `none` when `c` does not occur.  Models `str.split(c, 1)`. -/
def splitOnceChar (c : Char) : List Char → Option (List Char × List Char)
  | [] => none
  | x :: xs =>
    if x == c then some ([], xs)
    else (splitOnceChar c xs).map (fun p => (x :: p.1, p.2))

/-- Take the longest initial run of characters satisfying `p`; returns
(run, remainder). -/
def spanL (p : Char → Bool) : List Char → List Char × List Char
  | [] => ([], [])
  | c :: cs =>
    if p c then
      let r := spanL p cs
      (c :: r.1, r.2)
    else ([], c :: cs)

/-- Python `str.replace(old, new)` (all non-overlapping occurrences, left to
right), on char lists, with explicit fuel for structural recursion.  The fuel
is instantiated with the length of the scanned list, which suffices because
every step consumes at least one character.  (Python's behaviour for an empty
`old` — inserting between every character — is not modelled; this program
never replaces an empty needle.) -/
def pyReplaceF (old new : List Char) : Nat → List Char → List Char
  | 0, s => s
  | _ + 1, [] => []
  | fuel + 1, c :: cs =>
    if !old.isEmpty && startsL old (c :: cs) then
      new ++ pyReplaceF old new fuel ((c :: cs).drop old.length)
    else c :: pyReplaceF old new fuel cs

/-- Python `s.replace(old, new)`. -/
def pyReplace (s old new : String) : String :=
  ⟨pyReplaceF old.data new.data s.data.length s.data⟩

/-- Python `str.lower()` (ASCII range; the URLs this program manipulates are
ASCII). -/
def lowerS (s : String) : String := ⟨s.data.map Char.toLower⟩

/-- Python `c.isalnum() or c in '.-_'` — the character filter used by
`create_local_filename` (modelled on the ASCII range). -/
def safeChar (c : Char) : Bool := c.isAlphanum || c == '.' || c == '-' || c == '_'

/-- ASCII whitespace as matched by Python's `str.rstrip()` default. -/
def isSpaceC (c : Char) : Bool :=
  c == ' ' || c == '\t' || c == '\n' || c == '\x0d' || c == '\x0b' || c == '\x0c'

/-- Python `str.rstrip()` with the default whitespace characters. -/
def rstripS (s : String) : String :=
  ⟨(s.data.reverse.dropWhile isSpaceC).reverse⟩

/-! ### MD5 (modelled from RFC 1321, as computed by `hashlib.md5`)

`create_local_filename` computes `hashlib.md5(url.encode()).hexdigest()[:8]`.
All 32-bit arithmetic is `Nat` with explicit `% 2^32`. -/

/-- UTF-8 encoding of one character (standard 1–4 byte forms); models
Python `str.encode()` per code point. -/
def utf8Char (c : Char) : List Nat :=
  let n := c.toNat
  if n < 0x80 then [n]
  else if n < 0x800 then
    [0xC0 ||| (n >>> 6), 0x80 ||| (n &&& 0x3F)]
  else if n < 0x10000 then
    [0xE0 ||| (n >>> 12), 0x80 ||| ((n >>> 6) &&& 0x3F), 0x80 ||| (n &&& 0x3F)]
  else
    [0xF0 ||| (n >>> 18), 0x80 ||| ((n >>> 12) &&& 0x3F),
     0x80 ||| ((n >>> 6) &&& 0x3F), 0x80 ||| (n &&& 0x3F)]

/-- UTF-8 bytes of a string (models Python `str.encode()`). -/
def utf8Bytes (s : String) : List Nat := (s.data.map utf8Char).flatten

/-- 32-bit left rotation (input assumed `< 2^32`). -/
def rotl32 (x s : Nat) : Nat := ((x <<< s) + (x >>> (32 - s))) % 4294967296

/-- Bitwise complement within 32 bits (input assumed `< 2^32`). -/
def not32 (x : Nat) : Nat := 4294967295 - x

/-- The 64 MD5 sine-derived constants `K[i] = floor(2^32 * |sin(i+1)|)`. -/
def md5K : List Nat :=
  [0xd76aa478, 0xe8c7b756, 0x242070db, 0xc1bdceee,
   0xf57c0faf, 0x4787c62a, 0xa8304613, 0xfd469501,
   0x698098d8, 0x8b44f7af, 0xffff5bb1, 0x895cd7be,
   0x6b901122, 0xfd987193, 0xa679438e, 0x49b40821,
   0xf61e2562, 0xc040b340, 0x265e5a51, 0xe9b6c7aa,
   0xd62f105d, 0x02441453, 0xd8a1e681, 0xe7d3fbc8,
   0x21e1cde6, 0xc33707d6, 0xf4d50d87, 0x455a14ed,
   0xa9e3e905, 0xfcefa3f8, 0x676f02d9, 0x8d2a4c8a,
   0xfffa3942, 0x8771f681, 0x6d9d6122, 0xfde5380c,
   0xa4beea44, 0x4bdecfa9, 0xf6bb4b60, 0xbebfbc70,
   0x289b7ec6, 0xeaa127fa, 0xd4ef3085, 0x04881d05,
   0xd9d4d039, 0xe6db99e5, 0x1fa27cf8, 0xc4ac5665,
   0xf4292244, 0x432aff97, 0xab9423a7, 0xfc93a039,
   0x655b59c3, 0x8f0ccc92, 0xffeff47d, 0x85845dd1,
   0x6fa87e4f, 0xfe2ce6e0, 0xa3014314, 0x4e0811a1,
   0xf7537e82, 0xbd3af235, 0x2ad7d2bb, 0xeb86d391]

/-- The 64 per-round left-rotation amounts. -/
def md5S : List Nat :=
  [7, 12, 17, 22, 7, 12, 17, 22, 7, 12, 17, 22, 7, 12, 17, 22,
   5, 9, 14, 20, 5, 9, 14, 20, 5, 9, 14, 20, 5, 9, 14, 20,
   4, 11, 16, 23, 4, 11, 16, 23, 4, 11, 16, 23, 4, 11, 16, 23,
   6, 10, 15, 21, 6, 10, 15, 21, 6, 10, 15, 21, 6, 10, 15, 21]

/-- Little-endian 32-bit word `g` of a 64-byte block. -/
def blockWord (blk : List Nat) (g : Nat) : Nat :=
  blk.getD (4 * g) 0 + (blk.getD (4 * g + 1) 0) <<< 8 +
    (blk.getD (4 * g + 2) 0) <<< 16 + (blk.getD (4 * g + 3) 0) <<< 24

/-- One MD5 round `i` (0 ≤ i < 64) on state `(a, b, c, d)`. -/
def md5Round (blk : List Nat) (st : Nat × Nat × Nat × Nat) (i : Nat) :
    Nat × Nat × Nat × Nat :=
  let a := st.1; let b := st.2.1; let c := st.2.2.1; let d := st.2.2.2
  let fg : Nat × Nat :=
    if i < 16 then ((b &&& c) ||| (not32 b &&& d), i)
    else if i < 32 then ((d &&& b) ||| (not32 d &&& c), (5 * i + 1) % 16)
    else if i < 48 then (b ^^^ c ^^^ d, (3 * i + 5) % 16)
    else (c ^^^ (b ||| not32 d), (7 * i) % 16)
  let f := (fg.1 + a + md5K.getD i 0 + blockWord blk fg.2) % 4294967296
  (d, (b + rotl32 f (md5S.getD i 0)) % 4294967296, b, c)

/-- Process one 64-byte block: 64 rounds, then add into the running state. -/
def md5Block (st : Nat × Nat × Nat × Nat) (blk : List Nat) :
    Nat × Nat × Nat × Nat :=
  let r := (List.range 64).foldl (md5Round blk) st
  ((st.1 + r.1) % 4294967296, ((st.2.1 + r.2.1) % 4294967296,
    ((st.2.2.1 + r.2.2.1) % 4294967296, (st.2.2.2 + r.2.2.2) % 4294967296)))

/-- Little-endian byte list of length `k` for `n`. -/
def leBytes : Nat → Nat → List Nat
  | 0, _ => []
  | k + 1, n => (n &&& 0xff) :: leBytes k (n >>> 8)

/-- MD5 padding: append `0x80`, zero-fill to 56 mod 64, append the 64-bit
little-endian bit length. -/
def md5Pad (m : List Nat) : List Nat :=
  let len := m.length
  let z := (120 - ((len + 1) % 64)) % 64
  m ++ [0x80] ++ List.replicate z 0 ++ leBytes 8 (len * 8)

/-- Chop into 64-byte blocks (fuel = list length suffices). -/
def chunks64 : Nat → List Nat → List (List Nat)
  | 0, _ => []
  | _ + 1, [] => []
  | fuel + 1, l => l.take 64 :: chunks64 fuel (l.drop 64)

/-- The four final MD5 state words for a byte message. -/
def md5Digest (m : List Nat) : Nat × Nat × Nat × Nat :=
  let padded := md5Pad m
  (chunks64 padded.length padded).foldl md5Block
    (0x67452301, 0xefcdab89, 0x98badcfe, 0x10325476)

/-- One lowercase hex digit. -/
def hexDigit (n : Nat) : Char :=
  if n < 10 then Char.ofNat (48 + n) else Char.ofNat (87 + n)

/-- Two lowercase hex digits of a byte. -/
def byteHex (b : Nat) : List Char := [hexDigit (b >>> 4), hexDigit (b &&& 15)]

/-- `hashlib.md5(...).hexdigest()`: the 16 digest bytes (states `a,b,c,d`,
each little-endian) in lowercase hex. -/
def md5Hex (s : String) : String :=
  let d := md5Digest (utf8Bytes s)
  ⟨((leBytes 4 d.1 ++ leBytes 4 d.2.1 ++ leBytes 4 d.2.2.1 ++
      leBytes 4 d.2.2.2).map byteHex).flatten⟩

/-- `hashlib.md5(url.encode()).hexdigest()[:8]` — the 8-hex-character hash
spliced into every synthesized filename. -/
def urlHash8 (url : String) : String := ⟨(md5Hex url).data.take 8⟩

/-! ### POSIX path helpers (modelled from CPython `posixpath`)

The program runs its path arithmetic through `os.path`; forward slashes are
the separator relevant to its outputs (it explicitly normalizes `\` to `/`),
so the POSIX flavour is modelled. -/

/-- `os.path.basename`: everything after the last `/`. -/
def pyBasename (p : String) : String :=
  ⟨(p.data.reverse.takeWhile (fun c => !(c == '/'))).reverse⟩

/-- `p[:p.rfind('/') + 1]` — the raw head used by `posixpath.dirname` and
`posixpath.splitext`. -/
def dirnameRaw (p : List Char) : List Char :=
  (p.reverse.dropWhile (fun c => !(c == '/'))).reverse

/-- `os.path.dirname`: the head up to the last `/`, with trailing slashes
stripped unless the head is all slashes. -/
def pyDirname (p : String) : String :=
  let head := dirnameRaw p.data
  if !head.isEmpty && head.any (fun c => !(c == '/')) then
    ⟨(head.reverse.dropWhile (fun c => c == '/')).reverse⟩
  else ⟨head⟩

/-- `os.path.splitext`: split at the last dot of the final component, unless
every character of that component before the dot is itself a dot. -/
def pySplitext (p : String) : String × String :=
  let d := dirnameRaw p.data
  let b := p.data.drop d.length
  match splitOnceChar '.' b.reverse with
  | some (revExt, revStem) =>
    if revStem.any (fun c => !(c == '.')) then
      (⟨d ++ revStem.reverse⟩, ⟨'.' :: revExt.reverse⟩)
    else (p, "")
  | none => (p, "")

/-- `os.path.join` for two components (POSIX). -/
def pyJoin (a b : String) : String :=
  if startsL ['/'] b.data then b
  else if a.data.isEmpty || a.data.getLast? == some '/' then ⟨a.data ++ b.data⟩
  else ⟨a.data ++ '/' :: b.data⟩

/-- Python `str.split('/')` (keeps empty fields). -/
def pySplitSlash : List Char → List (List Char)
  | [] => [[]]
  | c :: cs =>
    if c == '/' then [] :: pySplitSlash cs
    else
      match pySplitSlash cs with
      | [] => [[c]]
      | h :: t => (c :: h) :: t

/-- Fold of path segments resolving `.` (dropped) and `..` (pops the
accumulator; a pop of an empty accumulator is a no-op, i.e. absolute-path
semantics where excess `..` vanishes). -/
def dotResolve : List (List Char) → List (List Char) → List (List Char)
  | acc, [] => acc
  | acc, s :: rest =>
    if s == ['.', '.'] then dotResolve acc.dropLast rest
    else if s == ['.'] then dotResolve acc rest
    else dotResolve (acc ++ [s]) rest

/-- `'/'.join(...)` on segment lists. -/
def joinSlash (l : List (List Char)) : List Char := (l.intersperse ['/']).flatten

/-- Length of the common leading run of two segment lists
(`os.path.commonprefix` on lists). -/
def commonLen : List (List Char) → List (List Char) → Nat
  | a :: as, b :: bs => if a == b then commonLen as bs + 1 else 0
  | _, _ => 0

/-- `os.path.relpath(path, start)` for the CWD-relative inputs this program
produces (both arguments are resolved against the same working directory, so
the directory prefix cancels; `.`/`..` segments are resolved with absolute
semantics as `abspath` would). -/
def pyRelpath (path start : String) : String :=
  let pl := dotResolve [] ((pySplitSlash path.data).filter (fun s => !s.isEmpty))
  let sl := dotResolve [] ((pySplitSlash start.data).filter (fun s => !s.isEmpty))
  let i := commonLen pl sl
  let rel := List.replicate (sl.length - i) ['.', '.'] ++ pl.drop i
  if rel.isEmpty then "." else ⟨joinSlash rel⟩

/-! ### URL parsing and joining (modelled from CPython `urllib.parse`)

`urlparse`'s `params` component (a `;suffix` of the last path segment) is
folded into the path: none of the program's URL shapes carry params, and
`urljoin` treats a params-only reference like a path-bearing one, which is the
only behavioural difference. -/

/-- A parsed URL: scheme, netloc, path, query, fragment. -/
structure UrlParts where
  scheme : String
  netloc : String
  path : String
  query : String
  frag : String
deriving DecidableEq, Repr

/-- Characters allowed in a URL scheme. -/
def schemeChar (c : Char) : Bool := c.isAlphanum || c == '+' || c == '-' || c == '.'

/-- Split off a scheme: if the text before the first `:` is a nonempty valid
scheme starting with a letter, return it lowercased together with the
remainder, else the default scheme and the whole input. -/
def schemeSplit (dflt : List Char) (u : List Char) : List Char × List Char :=
  match splitOnceChar ':' u with
  | some (bef, aft) =>
    if !bef.isEmpty && (bef.headD ' ').isAlpha && bef.all schemeChar then
      (bef.map Char.toLower, aft)
    else (dflt, u)
  | none => (dflt, u)

/-- Split off a netloc: if the input starts with `//`, the netloc runs to the
first `/`, `?` or `#`. -/
def netlocSplit (u : List Char) : List Char × List Char :=
  if startsL ['/', '/'] u then
    spanL (fun c => !(c == '/' || c == '?' || c == '#')) (u.drop 2)
  else ([], u)

/-- Split off the fragment at the first `#`. -/
def fragSplit (u : List Char) : List Char × List Char :=
  match splitOnceChar '#' u with
  | some (a, b) => (a, b)
  | none => (u, [])

/-- Split off the query at the first `?`. -/
def querySplit (u : List Char) : List Char × List Char :=
  match splitOnceChar '?' u with
  | some (a, b) => (a, b)
  | none => (u, [])

/-- `urllib.parse.urlsplit(url, scheme=dflt)` (fragments allowed). -/
def urlsplitS (dflt : String) (u : String) : UrlParts :=
  let s := schemeSplit dflt.data u.data
  let n := netlocSplit s.2
  let f := fragSplit n.2
  let q := querySplit f.1
  ⟨⟨s.1⟩, ⟨n.1⟩, ⟨q.1⟩, ⟨q.2⟩, ⟨f.2⟩⟩

/-- `urllib.parse.urlunsplit`. -/
def urlunsplitS (p : UrlParts) : String :=
  let u := p.path.data
  let u :=
    if !p.netloc.data.isEmpty || startsL ['/', '/'] u then
      ['/', '/'] ++ p.netloc.data ++
        (if !u.isEmpty && !startsL ['/'] u then '/' :: u else u)
    else u
  let u := if !p.scheme.data.isEmpty then p.scheme.data ++ ':' :: u else u
  let u := if !p.query.data.isEmpty then u ++ '?' :: p.query.data else u
  ⟨if !p.frag.data.isEmpty then u ++ '#' :: p.frag.data else u⟩

/-- `urllib.parse.uses_relative`. -/
def usesRelative : List String :=
  ["", "ftp", "http", "gopher", "nntp", "imap", "wais", "file", "https",
   "shttp", "mms", "prospero", "rtsp", "rtspu", "sftp", "svn", "svn+ssh",
   "ws", "wss"]

/-- `urllib.parse.uses_netloc`. -/
def usesNetloc : List String :=
  ["", "ftp", "http", "gopher", "nntp", "telnet", "imap", "wais", "file",
   "mms", "https", "shttp", "snews", "prospero", "rtsp", "rtspu", "rsync",
   "svn", "svn+ssh", "sftp", "nfs", "git", "git+ssh", "ws", "wss"]

/-- Keep the first element, filter empty segments strictly between the first
and last (`segments[1:-1] = filter(None, segments[1:-1])` applied to the
tail). -/
def filterMidKeepLast : List (List Char) → List (List Char)
  | [] => []
  | [x] => [x]
  | x :: xs => if x.isEmpty then filterMidKeepLast xs else x :: filterMidKeepLast xs

/-- RFC-3986-style relative path merge as implemented by CPython `urljoin`. -/
def mergePath (bpath rpath : String) : String :=
  let baseParts := pySplitSlash bpath.data
  let baseParts := if baseParts.getLastD [] != ([] : List Char) then baseParts.dropLast else baseParts
  let segments :=
    if startsL ['/'] rpath.data then pySplitSlash rpath.data
    else
      match baseParts ++ pySplitSlash rpath.data with
      | [] => []
      | x :: xs => x :: filterMidKeepLast xs
  let resolved := dotResolve [] segments
  let lastSeg := segments.getLastD []
  let resolved :=
    if lastSeg == ['.', '.'] || lastSeg == ['.'] then resolved ++ [[]] else resolved
  let p := joinSlash resolved
  ⟨if p.isEmpty then ['/'] else p⟩

/-- The non-trivial tail of `urljoin` (both URLs nonempty, scheme compatible). -/
def urljoinRest (b r : UrlParts) : String :=
  if usesNetloc.contains r.scheme && !r.netloc.data.isEmpty then
    urlunsplitS ⟨r.scheme, r.netloc, r.path, r.query, r.frag⟩
  else
    let netloc := if usesNetloc.contains r.scheme then b.netloc else r.netloc
    if r.path.data.isEmpty then
      urlunsplitS ⟨r.scheme, netloc, b.path,
        (if r.query.data.isEmpty then b.query else r.query), r.frag⟩
    else
      urlunsplitS ⟨r.scheme, netloc, mergePath b.path r.path, r.query, r.frag⟩

/-- `urllib.parse.urljoin(base, url)`. -/
def pyUrljoin (base url : String) : String :=
  if base.data.isEmpty then url
  else if url.data.isEmpty then base
  else
    let b := urlsplitS "" base
    let r := urlsplitS b.scheme url
    if r.scheme != b.scheme || !(usesRelative.contains r.scheme) then url
    else urljoinRest b r

/-! ### Library-model sanity checks (values confirmed against CPython) -/

theorem urljoin_check1 :
    pyUrljoin "https://www.google.com" "//cdn.example.com/a.js" =
      "https://cdn.example.com/a.js" := by decide

theorem urljoin_check2 :
    pyUrljoin "http://example.com" "//cdn.example.com/a.js" =
      "http://cdn.example.com/a.js" := by decide

theorem urljoin_check3 :
    pyUrljoin "https://example.com" "#grad" = "https://example.com#grad" := by
  decide

theorem urljoin_check4 :
    pyUrljoin "https://example.com/x/y/" "../img/a.png" =
      "https://example.com/x/img/a.png" := by decide

theorem urljoin_check5 :
    pyUrljoin "https://example.com" "/bg.png" = "https://example.com/bg.png" := by
  decide

theorem urljoin_check6 :
    pyUrljoin "https://example.com/a/b.html" "c.png" =
      "https://example.com/a/c.png" := by decide

theorem urljoin_check7 :
    pyUrljoin "https://example.com" "data:image/png;base64,xyz" =
      "data:image/png;base64,xyz" := by decide

theorem relpath_check1 : pyRelpath "resources/a.png" "" = "resources/a.png" := by
  decide

theorem relpath_check2 :
    pyRelpath "resources/a.png" "out" = "../resources/a.png" := by decide

theorem splitext_check :
    pySplitext "a.b.png" = ("a.b", ".png") ∧ pySplitext ".cshrc" = (".cshrc", "") ∧
      pySplitext "noext" = ("noext", "") := by decide

/-! ### The filename synthesizer (`create_local_filename`, demoizer.py:94-142) -/

/-- The keyword scan of `create_local_filename`: `any(keyword in url.lower()
for keyword in [...])`. -/
def anyKeyword (lu : String) (kws : List String) : Bool :=
  kws.any (fun k => containsSub lu k)

/-- Steps 1–4 of `create_local_filename`: the safe filename (stem and
extension) before the hash splice.  Translated line by line from
demoizer.py:97-135. -/
def demoizerFilename (url : String) : String :=
  let parsed := urlsplitS "" url
  let path := parsed.path
  let filename :=
    if path.data.isEmpty || path == "/" then
      pyReplace parsed.netloc "." "_" ++ ".html"
    else
      let f := pyBasename path
      if f.data.isEmpty then pyBasename (pyDirname path) ++ ".html" else f
  let filename :=
    if containsSub path "xjs" && containsSub path "_/ss/" then
      "google_bundle_styles.css"
    else if containsSub path "xjs" && containsSub path "_/js/" then
      "google_bundle_scripts.js"
    else if containsSub path "/images/" then
      (if !containsSub filename "." then filename ++ ".png" else filename)
    else filename
  let filename :=
    if !containsSub filename "." then
      let lu := lowerS url
      if anyKeyword lu ["css", "style", "/ss/"] then filename ++ ".css"
      else if anyKeyword lu ["js", "script", "/js/"] then filename ++ ".js"
      else if anyKeyword lu ["font", "woff", "ttf"] then filename ++ ".woff2"
      else if anyKeyword lu ["png", "jpg", "jpeg", "gif", "svg", "webp"] then
        filename ++ ".png"
      else filename ++ ".html"
    else filename
  rstripS ⟨filename.data.filter safeChar⟩

/-- `create_local_filename(url, resources_dir)` (demoizer.py:94-142): safe
filename with an 8-hex-char MD5 hash of the URL spliced between stem and
extension, joined under the resources directory. -/
def create_local_filename (url resources_dir : String) : String :=
  let se := pySplitext (demoizerFilename url)
  pyJoin resources_dir (se.1 ++ "_" ++ urlHash8 url ++ se.2)

/-! ### The fetcher (`download_resource`, demoizer.py:144-176)

The HTTP transport is a collaborator; it is modelled by a success oracle
`fetch : String → Bool`.  `downloadResource fetch url` returns the success
flag together with the list of URLs for which a GET was issued (empty when
the function bailed out before `session.get`). -/

def downloadResource (fetch : String → Bool) (url : String) : Bool × List String :=
  let url :=
    if startsWithS url "//" then "https:" ++ url
    else url
  if !(startsWithS url "http://" || startsWithS url "https://") then (false, [])
  else (fetch url, [url])

/-! ### The download cache (`downloaded_resources`, demoizer.py:198)

A Python dict from resolved URL to the relative path substituted for it,
modelled as an association list with dict update semantics. -/

def Cache := List (String × String)

/-- Dict membership/lookup: `cache[url]` / `url in cache`. -/
def cacheLookup : List (String × String) → String → Option String
  | [], _ => none
  | (k, v) :: t, u => if k == u then some v else cacheLookup t u

/-- Dict assignment: `cache[url] = rel` (overwrites an existing binding). -/
def cacheInsert : List (String × String) → String → String → List (String × String)
  | [], k, v => [(k, v)]
  | (k', v') :: t, k, v =>
    if k' == k then (k, v) :: t else (k', v') :: cacheInsert t k v

/-! ### URL resolution chains of the rewrite passes -/

/-- The skip guard of the attribute pass (demoizer.py:229):
`url.startswith(('data:', 'javascript:', 'mailto:', 'tel:', '#'))`. -/
def skipRef (url : String) : Bool :=
  startsWithAny url ["data:", "javascript:", "mailto:", "tel:", "#"]

/-- Attribute-pass URL resolution (demoizer.py:233-238): leading `/` or a
non-absolute reference is joined against the base URL. -/
def resolveAttrUrl (base url : String) : String :=
  if startsWithS url "/" then pyUrljoin base url
  else if !(startsWithAny url ["http://", "https://", "//"]) then
    pyUrljoin base url
  else url

/-- The validity check after attribute-pass resolution (demoizer.py:241). -/
def validAttrUrl (url : String) : Bool :=
  startsWithAny url ["http://", "https://", "//"]

/-- CSS-pass URL resolution (demoizer.py:277-282, 315-320, 348-353): a `//`
reference gets an explicit `https:`, a leading `/` or a non-absolute
reference is joined against the base URL. -/
def resolveCssUrl (base url : String) : String :=
  if startsWithS url "//" then "https:" ++ url
  else if startsWithS url "/" then pyUrljoin base url
  else if !(startsWithAny url ["http://", "https://"]) then pyUrljoin base url
  else url

/-- `css_url.startswith(('http://', 'https://'))`. -/
def isHttpUrl (url : String) : Bool := startsWithAny url ["http://", "https://"]

/-- The relative path substituted for a successfully downloaded resource
(demoizer.py:255-257 and the analogous lines of each pass): relative to the
output file's directory, backslashes normalized to forward slashes. -/
def relativeFor (outputFile url : String) : String :=
  pyReplace (pyRelpath (create_local_filename url "resources") (pyDirname outputFile))
    "\\" "/"

/-! ### The CSS `url(...)` extractor (demoizer.py:273, 309, 342)

`re.findall(r'url\(["\']?([^"\')\s]+)["\']?\)', content)`: at each position,
match literal `url(`, an optional single or double quote, one or more
characters that are neither quote, `)` nor whitespace (the captured group),
an optional quote, and `)`; scanning resumes after each match, else one
character further.  Because the body class excludes both quotes and `)`,
the regex engine's backtracking never produces an alternative match, so the
scan below is exactly the findall semantics. -/

/-- A character admissible inside the captured group. -/
def cssBodyChar (c : Char) : Bool :=
  !(c == '"' || c == '\'' || c == ')' || isSpaceC c)

/-- Attempt the pattern at the head of the input; on success return the
captured group and the remainder after the match. -/
def tryCssUrlAt : List Char → Option (List Char × List Char)
  | 'u' :: 'r' :: 'l' :: '(' :: rest =>
    let rest1 :=
      match rest with
      | c :: t => if c == '"' || c == '\'' then t else rest
      | [] => rest
    let sp := spanL cssBodyChar rest1
    if sp.1.isEmpty then none
    else
      match sp.2 with
      | ')' :: r => some (sp.1, r)
      | c :: ')' :: r => if c == '"' || c == '\'' then some (sp.1, r) else none
      | _ => none
  | _ => none

/-- Left-to-right non-overlapping scan (fuel = input length suffices: every
step consumes at least one character). -/
def scanCssUrls : Nat → List Char → List String
  | 0, _ => []
  | fuel + 1, s =>
    match tryCssUrlAt s with
    | some (g, rest) => (⟨g⟩ : String) :: scanCssUrls fuel rest
    | none =>
      match s with
      | [] => []
      | _ :: t => scanCssUrls fuel t

/-- `re.findall(r'url\(["\']?([^"\')\s]+)["\']?\)', content)`. -/
def findCssUrls (content : String) : List String :=
  scanCssUrls content.data.length content.data

theorem findCssUrls_check :
    findCssUrls "a\x7bbackground:url('/bg.png') url(\"x y\") url(b.gif)\x7d" =
      ["/bg.png", "b.gif"] := by decide

theorem create_local_filename_check1 :
    create_local_filename "https://example.com/bg.png" "resources" =
      "resources/bg_e6b0dc2e.png" := by decide

theorem create_local_filename_check2 :
    create_local_filename "https://example.com/" "resources" =
      "resources/example_com_182ccedb.html" := by decide

theorem create_local_filename_check3 :
    create_local_filename "https://example.com/dir/" "resources" =
      "resources/dir_13c8e884.html" := by decide

theorem create_local_filename_check4 :
    create_local_filename "https://fonts.example.com/x/webfont" "resources" =
      "resources/webfont_96fe6d74.woff2" := by decide

theorem create_local_filename_check5 :
    create_local_filename "https://example.com/xjs/_/ss/k=abc" "resources" =
      "resources/google_bundle_styles_9723440b.css" := by decide

/-! ### The document model

HTML parsing is a collaborator (BeautifulSoup).  The program only ever
selects elements by tag (optionally refined by one attribute equality),
reads/writes attribute values, removes `<script>` nodes, and reads/writes the
text of `<style>` nodes.  A document is therefore modelled as the sequence of
its element nodes in document order, each carrying its tag, attribute dict
and (for `<style>`/`<script>`) its text.  With `html.parser`, a `<script>`
element's content is raw text, never child elements, so removing a script
node removes no other element and the flat sequence is faithful for every
operation the program performs. -/

structure Element where
  tag : String
  attrs : List (String × String)
  text : String
deriving DecidableEq, Repr

/-- `element.has_attr(a)`. -/
def hasAttr (e : Element) (a : String) : Bool :=
  (cacheLookup e.attrs a).isSome

/-- `element[a]` (reading; `none` when absent). -/
def getAttr (e : Element) (a : String) : Option String := cacheLookup e.attrs a

/-- `element[a] = v`. -/
def setAttr (e : Element) (a v : String) : Element :=
  { e with attrs := cacheInsert e.attrs a v }

/-- `del element[a]`. -/
def delAttr (e : Element) (a : String) : Element :=
  { e with attrs := e.attrs.filter (fun kv => !(kv.1 == a)) }

/-- A CSS selector of the restricted shape the program uses: a tag name,
optionally refined by one exact attribute match (`tag[attr="value"]`). -/
structure Selector where
  tag : String
  req : Option (String × String)
deriving Repr

/-- Does an element match a selector? -/
def matchesSel (sel : Selector) (e : Element) : Bool :=
  e.tag == sel.tag &&
    (match sel.req with
     | none => true
     | some (k, v) => getAttr e k == some v)

/-- `resource_selectors` (demoizer.py:201-218): the (selector, attribute)
pairs of the attribute pass, in source order. -/
def resource_selectors : List (Selector × String) :=
  [(⟨"img", none⟩, "src"),
   (⟨"image", none⟩, "src"),
   (⟨"meta", some ("itemprop", "image")⟩, "content"),
   (⟨"meta", some ("property", "og:image")⟩, "content"),
   (⟨"meta", some ("name", "twitter:image")⟩, "content"),
   (⟨"link", none⟩, "href"),
   (⟨"script", none⟩, "src"),
   (⟨"link", some ("rel", "icon")⟩, "href"),
   (⟨"link", some ("rel", "shortcut icon")⟩, "href")]

/-! ### The attribute pass (demoizer.py:222-262)

Each step returns the replacement attribute value (`none` = leave untouched),
the updated cache, and the fetch log. -/

/-- Processing of one attribute value (demoizer.py:228-262). -/
def attrStep (base outputFile : String) (fetch : String → Bool) (cache : Cache)
    (v : String) : Option String × Cache × List String :=
  if skipRef v then (none, cache, [])
  else
    let url := resolveAttrUrl base v
    if !validAttrUrl url then (none, cache, [])
    else
      match cacheLookup cache url with
      | some rel => (some rel, cache, [])
      | none =>
        let dl := downloadResource fetch url
        if dl.1 then
          let rel := relativeFor outputFile url
          (some rel, cacheInsert cache url rel, dl.2)
        else (none, cache, dl.2)

/-- One selector's sweep over the element sequence (`soup.select(selector)`
followed by the per-element loop), threading the cache and concatenating
fetch logs. -/
def runSelector (base outputFile : String) (fetch : String → Bool)
    (sel : Selector) (attr : String) :
    List Element → Cache → List Element × Cache × List String
  | [], cache => ([], cache, [])
  | e :: es, cache =>
    if matchesSel sel e && hasAttr e attr then
      let st := attrStep base outputFile fetch cache ((getAttr e attr).getD "")
      let e' := match st.1 with
        | some rel => setAttr e attr rel
        | none => e
      let rest := runSelector base outputFile fetch sel attr es st.2.1
      (e' :: rest.1, rest.2.1, st.2.2 ++ rest.2.2)
    else
      let rest := runSelector base outputFile fetch sel attr es cache
      (e :: rest.1, rest.2.1, rest.2.2)

/-- The whole attribute pass: the nine selectors run in order over the
(mutating) document. -/
def attributePass (base outputFile : String) (fetch : String → Bool)
    (doc : List Element) (cache : Cache) : List Element × Cache × List String :=
  resource_selectors.foldl
    (fun acc sa =>
      let r := runSelector base outputFile fetch sa.1 sa.2 acc.1 acc.2.1
      (r.1, r.2.1, acc.2.2 ++ r.2.2))
    (doc, cache, [])

/-! ### The three CSS rewrite contexts (demoizer.py:266-299, 303-333, 337-369)

Each is a fold over the references extracted from the original text; the
accumulator is (text, cache, fetch log). -/

/-- One reference of the external-stylesheet pass (demoizer.py:275-292).
Note: on success the *resolved* URL is replaced in the text (the source has
no `original_css_url` here), and a cache hit is skipped entirely. -/
def cssFileStep (base outputFile : String) (fetch : String → Bool)
    (acc : String × Cache × List String) (ref : String) :
    String × Cache × List String :=
  let url := resolveCssUrl base ref
  if isHttpUrl url && (cacheLookup acc.2.1 url).isNone then
    let dl := downloadResource fetch url
    if dl.1 then
      let rel := relativeFor outputFile url
      (pyReplace acc.1 url rel, cacheInsert acc.2.1 url rel, acc.2.2 ++ dl.2)
    else (acc.1, acc.2.1, acc.2.2 ++ dl.2)
  else acc

/-- One reference of the inline `<style>` pass (demoizer.py:311-330): like
the external pass but the original reference text is replaced. -/
def inlineStyleStep (base outputFile : String) (fetch : String → Bool)
    (acc : String × Cache × List String) (ref : String) :
    String × Cache × List String :=
  let url := resolveCssUrl base ref
  if isHttpUrl url && (cacheLookup acc.2.1 url).isNone then
    let dl := downloadResource fetch url
    if dl.1 then
      let rel := relativeFor outputFile url
      (pyReplace acc.1 ref rel, cacheInsert acc.2.1 url rel, acc.2.2 ++ dl.2)
    else (acc.1, acc.2.1, acc.2.2 ++ dl.2)
  else acc

/-- One reference of the inline `style=` attribute pass
(demoizer.py:344-366): a cache hit substitutes the cached relative path for
the original reference; otherwise fetch and substitute on success. -/
def styleAttrStep (base outputFile : String) (fetch : String → Bool)
    (acc : String × Cache × List String) (ref : String) :
    String × Cache × List String :=
  let url := resolveCssUrl base ref
  match cacheLookup acc.2.1 url with
  | some rel => (pyReplace acc.1 ref rel, acc.2.1, acc.2.2)
  | none =>
    if isHttpUrl url then
      let dl := downloadResource fetch url
      if dl.1 then
        let rel := relativeFor outputFile url
        (pyReplace acc.1 ref rel, cacheInsert acc.2.1 url rel, acc.2.2 ++ dl.2)
      else (acc.1, acc.2.1, acc.2.2 ++ dl.2)
    else acc

/-- Text-level run of the external-stylesheet pass over one stylesheet's
content: the reference list is extracted from the original text once, then
each reference is processed in order (demoizer.py:271-296). -/
def cssFilePass (base outputFile : String) (fetch : String → Bool)
    (content : String) (cache : Cache) : String × Cache × List String :=
  (findCssUrls content).foldl (cssFileStep base outputFile fetch)
    (content, cache, [])

/-- Text-level run of the inline `<style>` pass over one style block. -/
def inlineStylePass (base outputFile : String) (fetch : String → Bool)
    (content : String) (cache : Cache) : String × Cache × List String :=
  (findCssUrls content).foldl (inlineStyleStep base outputFile fetch)
    (content, cache, [])

/-- Text-level run of the inline `style=` attribute pass over one attribute
value (the pass itself only runs when the value contains `"url("`). -/
def styleAttrPass (base outputFile : String) (fetch : String → Bool)
    (content : String) (cache : Cache) : String × Cache × List String :=
  (findCssUrls content).foldl (styleAttrStep base outputFile fetch)
    (content, cache, [])

/-! ### The sanitizer (demoizer.py:371-380) -/

/-- Hyperlink rewriting (demoizer.py:376-380): every `<a>` carrying `href`
gets `href = link_replacement` and loses any `ping` attribute. -/
def replaceLink (linkReplacement : String) (e : Element) : Element :=
  if e.tag == "a" && hasAttr e "href" then
    delAttr (setAttr e "href" linkReplacement) "ping"
  else e

/-- The sanitizer: `script.decompose()` for every script element, then the
hyperlink rewrite (demoizer.py:371-380). -/
def sanitize (linkReplacement : String) (doc : List Element) : List Element :=
  (doc.filter (fun e => !(e.tag == "script"))).map (replaceLink linkReplacement)

/-! ### The per-job loop (demoizer.py:391-402)

Jobs come from JSON configuration, i.e. each is a dict; `process_html_file`'s
behaviour is abstracted by an oracle returning `Except`.  Python semantics
matter here: the four `file_config[...]` subscripts in the `try` block raise
`KeyError` on a missing key, both `except` handlers are entered for any
`Exception` subclass, and each handler itself subscripts
`file_config['input_filename']` to format its message — an exception raised
there propagates out of the handler and aborts the whole run. -/

inductive PyExc where
  | fileNotFound : PyExc
  | keyError : String → PyExc
  | other : String → PyExc
deriving DecidableEq, Repr

/-- One job's configuration dict (string keys and values, as parsed from
JSON). -/
def JobConfig := List (String × String)

/-- `file_config[key]`: the value, or a raised `KeyError`. -/
def cfgGet (c : JobConfig) (k : String) : Except PyExc String :=
  match cacheLookup c k with
  | some v => .ok v
  | none => .error (.keyError k)

/-- The body of the `try` block (demoizer.py:393-398): evaluate the four
subscripts left to right, then call `process_html_file`. -/
def tryJob (proc : String → String → String → String → Except PyExc Unit)
    (c : JobConfig) : Except PyExc Unit := do
  let i ← cfgGet c "input_filename"
  let o ← cfgGet c "output_filename"
  let l ← cfgGet c "link_replacement"
  let b ← cfgGet c "base_url"
  proc i o l b

/-- Outcome recorded for one job: completed, or failed with a logged
exception. -/
inductive JobOutcome where
  | ok : JobOutcome
  | failedLogged : PyExc → JobOutcome
deriving DecidableEq, Repr

/-- The `for file_config in files_to_process` loop (demoizer.py:391-402).
Returns the per-job outcomes, or the exception that escaped a handler and
aborted the run. -/
def runAllJobs (proc : String → String → String → String → Except PyExc Unit) :
    List JobConfig → Except PyExc (List JobOutcome)
  | [] => .ok []
  | c :: cs =>
    match tryJob proc c with
    | .ok _ => (runAllJobs proc cs).map (fun outs => .ok :: outs)
    | .error e =>
      match cfgGet c "input_filename" with
      | .ok _ => (runAllJobs proc cs).map (fun outs => .failedLogged e :: outs)
      | .error e' => .error e'

/-- RFC 1321 test vector: MD5 of the empty string. -/
theorem md5Hex_empty : md5Hex "" = "d41d8cd98f00b204e9800998ecf8427e" := by
  decide

/-- RFC 1321 test vector: MD5 of `"abc"`. -/
theorem md5Hex_abc : md5Hex "abc" = "900150983cd24fb0d6963f7d28e17f72" := by
  decide

/-! ### General helper lemmas -/

theorem startsL_exists {p s : List Char} (h : startsL p s = true) :
    ∃ t, s = p ++ t := by
  induction p generalizing s with
  | nil => exact ⟨s, rfl⟩
  | cons c cs ih =>
    cases s with
    | nil => simp [startsL] at h
    | cons x xs =>
      simp only [startsL, Bool.and_eq_true, beq_iff_eq] at h
      obtain ⟨rfl, h2⟩ := h
      obtain ⟨t, rfl⟩ := ih h2
      exact ⟨t, rfl⟩

theorem cacheLookup_insert_self (l : List (String × String)) (k v : String) :
    cacheLookup (cacheInsert l k v) k = some v := by
  induction l with
  | nil => simp [cacheInsert, cacheLookup]
  | cons kv t ih =>
    obtain ⟨a, b⟩ := kv
    by_cases h : a = k
    · subst h
      simp [cacheInsert, cacheLookup]
    · simp [cacheInsert, cacheLookup, h, ih]

theorem cacheLookup_filterNe_self (l : List (String × String)) (a : String) :
    cacheLookup (l.filter (fun kv => !(kv.1 == a))) a = none := by
  induction l with
  | nil => simp [cacheLookup]
  | cons kv t ih =>
    obtain ⟨x, y⟩ := kv
    by_cases h : x = a
    · subst h
      simpa [cacheLookup] using ih
    · simp [cacheLookup, h, ih]

theorem cacheLookup_filterNe_other (l : List (String × String)) (a b : String)
    (h : b ≠ a) :
    cacheLookup (l.filter (fun kv => !(kv.1 == a))) b = cacheLookup l b := by
  induction l with
  | nil => simp
  | cons kv t ih =>
    obtain ⟨x, y⟩ := kv
    by_cases hx : x = a
    · subst hx
      simp [cacheLookup, Ne.symm h, ih]
    · by_cases hb : x = b
      · subst hb
        simp [cacheLookup, hx]
      · simp [cacheLookup, hx, hb, ih]

/-! ### Claims -/

/-- **C8.** The filename synthesizer is a pure, deterministic function of the
pair (URL, resources directory): two calls with the same inputs yield the
same output path.  In this embedding `create_local_filename` is a function of
exactly these two arguments (it reads no other state — the source function
demoizer.py:94-142 touches only its parameters), so determinism is equality
of results under equal inputs. -/
theorem C8_synthesizer_deterministic (u₁ u₂ d₁ d₂ : String)
    (hu : u₁ = u₂) (hd : d₁ = d₂) :
    create_local_filename u₁ d₁ = create_local_filename u₂ d₂ := by
  rw [hu, hd]

theorem C8_synthesizer_deterministic_witness :
    create_local_filename "https://example.com/bg.png" "resources" =
      create_local_filename "https://example.com/bg.png" "resources" :=
  C8_synthesizer_deterministic _ _ _ _ rfl rfl

/-- **C6.** After the sanitizer runs, every element of the output document:
is not a script element; if it is a hyperlink element carrying `href`, its
`href` equals the job's configured link replacement; and no hyperlink element
carries a `ping` attribute.  (Per the HTML standard an `<a>` element is a
hyperlink exactly when it carries `href`; the theorem covers every `<a>` with
`href`, which after sanitization is exactly the set of hyperlinks, since
`replaceLink` preserves the presence of `href`.) -/
theorem C6_sanitizer_output (repl : String) (doc : List Element) (e : Element)
    (he : e ∈ sanitize repl doc) :
    e.tag ≠ "script" ∧
      (e.tag = "a" → hasAttr e "href" = true →
        getAttr e "href" = some repl ∧ hasAttr e "ping" = false) := by
  obtain ⟨x, hx, rfl⟩ := List.mem_map.mp he
  obtain ⟨hxd, hxs⟩ := List.mem_filter.mp hx
  have hxtag : x.tag ≠ "script" := by
    intro h
    simp [h] at hxs
  unfold replaceLink
  by_cases hcond : (x.tag == "a" && hasAttr x "href") = true
  · obtain ⟨htag, hhref⟩ := Bool.and_eq_true_iff.mp hcond
    simp only [hcond, if_true]
    refine ⟨by simpa [delAttr, setAttr] using hxtag, fun _ _ => ?_⟩
    constructor
    · show cacheLookup _ "href" = some repl
      rw [delAttr, setAttr]
      have : ("href" : String) ≠ "ping" := by decide
      simp only [getAttr] at *
      rw [show (cacheInsert x.attrs "href" repl).filter
            (fun kv => !(kv.1 == "ping")) =
          ((cacheInsert x.attrs "href" repl).filter
            (fun kv => !(kv.1 == "ping"))) from rfl]
      calc cacheLookup ((cacheInsert x.attrs "href" repl).filter
              (fun kv => !(kv.1 == "ping"))) "href"
          = cacheLookup (cacheInsert x.attrs "href" repl) "href" :=
            cacheLookup_filterNe_other _ _ _ this
        _ = some repl := cacheLookup_insert_self _ _ _
    · show (cacheLookup _ "ping").isSome = false
      rw [delAttr, setAttr]
      simp [cacheLookup_filterNe_self]
  · simp only [Bool.not_eq_true] at hcond
    simp only [hcond, Bool.false_eq_true, if_false]
    refine ⟨hxtag, fun htag hhref => ?_⟩
    exfalso
    rw [Bool.and_eq_false_iff] at hcond
    rcases hcond with h | h
    · simp [htag] at h
    · rw [hhref] at h
      exact Bool.false_ne_true (h.symm)

theorem C6_sanitizer_output_witness :
    (⟨"a", [("href", "#")], ""⟩ : Element).tag ≠ "script" ∧
      ((⟨"a", [("href", "#")], ""⟩ : Element).tag = "a" →
        hasAttr ⟨"a", [("href", "#")], ""⟩ "href" = true →
        getAttr ⟨"a", [("href", "#")], ""⟩ "href" = some "#" ∧
          hasAttr ⟨"a", [("href", "#")], ""⟩ "ping" = false) :=
  C6_sanitizer_output "#"
    [⟨"script", [("src", "a.js")], ""⟩,
     ⟨"a", [("href", "https://x.com"), ("ping", "https://t.co")], ""⟩]
    ⟨"a", [("href", "#")], ""⟩ (by decide)

/-- **C7 (counterexample).** The claim says any exception raised while
processing a job is caught and reported and processing continues, so no
job-level error ever aborts the run.  Concretely false: for a job whose
configuration dict lacks `input_filename`, the `KeyError` raised inside the
`try` block is caught, but both handlers re-subscript
`file_config['input_filename']` to format their message, raising a second
`KeyError` that escapes the handler — the run aborts and the following
(well-formed) job is never processed. -/
theorem C7_counterexample :
    runAllJobs (fun _ _ _ _ => .ok ())
      [([] : JobConfig),
       ([("input_filename", "in.html"), ("output_filename", "out.html"),
         ("link_replacement", "#"), ("base_url", "https://example.com")] :
          JobConfig)] =
      .error (.keyError "input_filename") := rfl

/-- **C7 (amended).** For every job list in which each job's configuration
dict contains the `input_filename` key, any exception raised while processing
a job (including a missing input file) is caught and reported and processing
continues with the next job: the loop returns an outcome for every job and
never aborts.  Without that key, the `KeyError` re-raised while formatting
the handler's message aborts the whole run (see the counterexample). -/
theorem C7_job_errors_recovered
    (proc : String → String → String → String → Except PyExc Unit)
    (cs : List JobConfig)
    (h : ∀ c ∈ cs, (cacheLookup c "input_filename").isSome = true) :
    ∃ outs, runAllJobs proc cs = .ok outs ∧ outs.length = cs.length := by
  induction cs with
  | nil => exact ⟨[], rfl, rfl⟩
  | cons c cs ih =>
    obtain ⟨outs, houts, hlen⟩ := ih (fun x hx => h x (List.mem_cons_of_mem _ hx))
    have hc := h c (List.mem_cons_self _ _)
    obtain ⟨v, hv⟩ := Option.isSome_iff_exists.mp hc
    have hget : cfgGet c "input_filename" = .ok v := by
      simp [cfgGet, hv]
    cases htry : tryJob proc c with
    | ok u =>
      exact ⟨.ok :: outs, by simp [runAllJobs, htry, houts, Except.map], by simp [hlen]⟩
    | error e =>
      exact ⟨.failedLogged e :: outs,
        by simp [runAllJobs, htry, hget, houts, Except.map], by simp [hlen]⟩

theorem C7_job_errors_recovered_witness :
    ∃ outs,
      runAllJobs (fun _ _ _ _ => .error .fileNotFound)
          [([("input_filename", "missing.html"), ("output_filename", "o.html"),
             ("link_replacement", "#"), ("base_url", "https://example.com")] :
              JobConfig)] =
        .ok outs ∧ outs.length = 1 :=
  C7_job_errors_recovered _ _ (by decide)

/-- **C1 (counterexample).** The claim says a second reference to a cached
URL substitutes the cached relative path in *any* of the four contexts.  In
the external-stylesheet context this is false: with the URL already in the
cache, the pass leaves the stylesheet text entirely unchanged (and issues no
fetch), even though substituting the cached path would have changed it —
the remote URL survives in the emitted CSS. -/
theorem C1_counterexample :
    (cssFilePass "https://example.com" "Demo.html" (fun _ => false)
        "b\x7bbackground:url(https://img.example.com/a.png)\x7d"
        [("https://img.example.com/a.png", "resources/a_1903f7ed.png")] =
      ("b\x7bbackground:url(https://img.example.com/a.png)\x7d",
       [("https://img.example.com/a.png", "resources/a_1903f7ed.png")],
       [])) ∧
      pyReplace "b\x7bbackground:url(https://img.example.com/a.png)\x7d"
          "https://img.example.com/a.png" "resources/a_1903f7ed.png" ≠
        "b\x7bbackground:url(https://img.example.com/a.png)\x7d" := by
  constructor
  · rfl
  · decide

/-- **C1 (amended).** For a URL already present in the download cache, a
second reference to it triggers no second fetch in any of the four rewrite
contexts, but the cached relative path is substituted only in the tag
attribute context and the inline `style=` attribute context; the external
stylesheet and inline `<style>` contexts skip a cached URL entirely, leaving
the original reference text unsubstituted. -/
theorem C1_cache_hit_behaviour
    -- tag-attribute context
    (base₁ out₁ v₁ rel₁ : String) (fetch₁ : String → Bool) (c₁ : Cache)
    (hskip₁ : skipRef v₁ = false)
    (hvalid₁ : validAttrUrl (resolveAttrUrl base₁ v₁) = true)
    (hhit₁ : cacheLookup c₁ (resolveAttrUrl base₁ v₁) = some rel₁)
    -- external-stylesheet context
    (base₂ out₂ t₂ r₂ rel₂ : String) (fetch₂ : String → Bool) (c₂ : Cache)
    (l₂ : List String)
    (hhit₂ : cacheLookup c₂ (resolveCssUrl base₂ r₂) = some rel₂)
    -- inline <style> context
    (base₃ out₃ t₃ r₃ rel₃ : String) (fetch₃ : String → Bool) (c₃ : Cache)
    (l₃ : List String)
    (hhit₃ : cacheLookup c₃ (resolveCssUrl base₃ r₃) = some rel₃)
    -- inline style= attribute context
    (base₄ out₄ t₄ r₄ rel₄ : String) (fetch₄ : String → Bool) (c₄ : Cache)
    (l₄ : List String)
    (hhit₄ : cacheLookup c₄ (resolveCssUrl base₄ r₄) = some rel₄) :
    attrStep base₁ out₁ fetch₁ c₁ v₁ = (some rel₁, c₁, []) ∧
      cssFileStep base₂ out₂ fetch₂ (t₂, c₂, l₂) r₂ = (t₂, c₂, l₂) ∧
      inlineStyleStep base₃ out₃ fetch₃ (t₃, c₃, l₃) r₃ = (t₃, c₃, l₃) ∧
      styleAttrStep base₄ out₄ fetch₄ (t₄, c₄, l₄) r₄ =
        (pyReplace t₄ r₄ rel₄, c₄, l₄) := by
  refine ⟨?_, ?_, ?_, ?_⟩
  · simp [attrStep, hskip₁, hvalid₁, hhit₁]
  · simp [cssFileStep, hhit₂]
  · simp [inlineStyleStep, hhit₃]
  · simp [styleAttrStep, hhit₄]

theorem C1_cache_hit_behaviour_witness :
    attrStep "https://example.com" "Demo.html" (fun _ => false)
        [("https://img.example.com/a.png", "resources/a_1903f7ed.png")]
        "https://img.example.com/a.png" =
      (some "resources/a_1903f7ed.png",
       [("https://img.example.com/a.png", "resources/a_1903f7ed.png")], []) ∧
      cssFileStep "https://example.com" "Demo.html" (fun _ => false)
          ("b\x7bbackground:url(https://img.example.com/a.png)\x7d",
           [("https://img.example.com/a.png", "resources/a_1903f7ed.png")], [])
          "https://img.example.com/a.png" =
        ("b\x7bbackground:url(https://img.example.com/a.png)\x7d",
         [("https://img.example.com/a.png", "resources/a_1903f7ed.png")], []) ∧
      inlineStyleStep "https://example.com" "Demo.html" (fun _ => false)
          (".x\x7bbackground:url(https://img.example.com/a.png)\x7d",
           [("https://img.example.com/a.png", "resources/a_1903f7ed.png")], [])
          "https://img.example.com/a.png" =
        (".x\x7bbackground:url(https://img.example.com/a.png)\x7d",
         [("https://img.example.com/a.png", "resources/a_1903f7ed.png")], []) ∧
      styleAttrStep "https://example.com" "Demo.html" (fun _ => false)
          ("background:url(https://img.example.com/a.png)",
           [("https://img.example.com/a.png", "resources/a_1903f7ed.png")], [])
          "https://img.example.com/a.png" =
        (pyReplace "background:url(https://img.example.com/a.png)"
            "https://img.example.com/a.png" "resources/a_1903f7ed.png",
         [("https://img.example.com/a.png", "resources/a_1903f7ed.png")], []) :=
  C1_cache_hit_behaviour
    "https://example.com" "Demo.html" "https://img.example.com/a.png"
    "resources/a_1903f7ed.png" (fun _ => false) _ (by decide) (by decide)
    (by decide)
    "https://example.com" "Demo.html"
    "b\x7bbackground:url(https://img.example.com/a.png)\x7d"
    "https://img.example.com/a.png" "resources/a_1903f7ed.png" (fun _ => false)
    _ [] (by decide)
    "https://example.com" "Demo.html"
    ".x\x7bbackground:url(https://img.example.com/a.png)\x7d"
    "https://img.example.com/a.png" "resources/a_1903f7ed.png" (fun _ => false)
    _ [] (by decide)
    "https://example.com" "Demo.html"
    "background:url(https://img.example.com/a.png)"
    "https://img.example.com/a.png" "resources/a_1903f7ed.png" (fun _ => false)
    _ [] (by decide)

/-- `urljoin` returns the reference unchanged whenever it carries a scheme
outside `uses_relative` (CPython's early return). -/
theorem pyUrljoin_nonrelative_scheme (b u : String) (sch aft : List Char)
    (hsplit : splitOnceChar ':' u.data = some (sch, aft))
    (hvalid : (!sch.isEmpty && (sch.headD ' ').isAlpha && sch.all schemeChar) = true)
    (hmem : usesRelative.contains (⟨sch.map Char.toLower⟩ : String) = false)
    (hne : u.data.isEmpty = false) :
    pyUrljoin b u = u := by
  unfold pyUrljoin
  by_cases hb : b.data.isEmpty
  · simp [hb]
  · have hv' : (¬sch = [] ∧ (sch.head?.getD ' ').isAlpha = true) ∧
        ∀ x ∈ sch, schemeChar x = true := by simpa using hvalid
    have hrs : (urlsplitS (urlsplitS "" b).scheme u).scheme =
        (⟨sch.map Char.toLower⟩ : String) := by
      simp [urlsplitS, schemeSplit, hsplit, hv'.1.1, hv'.1.2, eq_true hv'.2]
    simp only [hb, Bool.false_eq_true, if_false, hne]
    rw [hrs, hmem]
    simp

theorem pyUrljoin_keeps_data (b : String) (t : List Char) :
    pyUrljoin b ⟨"data:".data ++ t⟩ = ⟨"data:".data ++ t⟩ :=
  pyUrljoin_nonrelative_scheme b _ "data".data t rfl rfl rfl rfl

theorem pyUrljoin_keeps_javascript (b : String) (t : List Char) :
    pyUrljoin b ⟨"javascript:".data ++ t⟩ = ⟨"javascript:".data ++ t⟩ :=
  pyUrljoin_nonrelative_scheme b _ "javascript".data t rfl rfl rfl rfl

theorem pyUrljoin_keeps_mailto (b : String) (t : List Char) :
    pyUrljoin b ⟨"mailto:".data ++ t⟩ = ⟨"mailto:".data ++ t⟩ :=
  pyUrljoin_nonrelative_scheme b _ "mailto".data t rfl rfl rfl rfl

theorem pyUrljoin_keeps_tel (b : String) (t : List Char) :
    pyUrljoin b ⟨"tel:".data ++ t⟩ = ⟨"tel:".data ++ t⟩ :=
  pyUrljoin_nonrelative_scheme b _ "tel".data t rfl rfl rfl rfl

/-- A reference with one of the four non-fetchable schemes is left unchanged
by the CSS resolution chain and fails the `http(s)` check. -/
theorem resolveCss_keeps_scheme (base ref : String)
    (h4 : startsWithAny ref ["data:", "javascript:", "mailto:", "tel:"] = true) :
    resolveCssUrl base ref = ref ∧ isHttpUrl ref = false := by
  obtain ⟨l⟩ := ref
  simp only [startsWithAny, List.any_cons, List.any_nil, Bool.or_eq_true,
    Bool.or_false] at h4
  rcases h4 with h | h | h | h <;>
    (obtain ⟨t, ht⟩ := startsL_exists h; subst ht) <;>
    refine ⟨?_, rfl⟩
  · show resolveCssUrl base ⟨"data:".data ++ t⟩ = _
    rw [resolveCssUrl]
    simp only [show startsWithS ⟨"data:".data ++ t⟩ "//" = false from rfl,
      show startsWithS ⟨"data:".data ++ t⟩ "/" = false from rfl,
      show startsWithAny ⟨"data:".data ++ t⟩ ["http://", "https://"] = false from
        rfl, Bool.false_eq_true, if_false, Bool.not_false, if_true]
    exact pyUrljoin_keeps_data base t
  · show resolveCssUrl base ⟨"javascript:".data ++ t⟩ = _
    rw [resolveCssUrl]
    simp only [show startsWithS ⟨"javascript:".data ++ t⟩ "//" = false from rfl,
      show startsWithS ⟨"javascript:".data ++ t⟩ "/" = false from rfl,
      show startsWithAny ⟨"javascript:".data ++ t⟩ ["http://", "https://"] =
        false from rfl, Bool.false_eq_true, if_false, Bool.not_false, if_true]
    exact pyUrljoin_keeps_javascript base t
  · show resolveCssUrl base ⟨"mailto:".data ++ t⟩ = _
    rw [resolveCssUrl]
    simp only [show startsWithS ⟨"mailto:".data ++ t⟩ "//" = false from rfl,
      show startsWithS ⟨"mailto:".data ++ t⟩ "/" = false from rfl,
      show startsWithAny ⟨"mailto:".data ++ t⟩ ["http://", "https://"] = false
        from rfl, Bool.false_eq_true, if_false, Bool.not_false, if_true]
    exact pyUrljoin_keeps_mailto base t
  · show resolveCssUrl base ⟨"tel:".data ++ t⟩ = _
    rw [resolveCssUrl]
    simp only [show startsWithS ⟨"tel:".data ++ t⟩ "//" = false from rfl,
      show startsWithS ⟨"tel:".data ++ t⟩ "/" = false from rfl,
      show startsWithAny ⟨"tel:".data ++ t⟩ ["http://", "https://"] = false from
        rfl, Bool.false_eq_true, if_false, Bool.not_false, if_true]
    exact pyUrljoin_keeps_tel base t

/-- A CSS-context reference that resolves to itself and is not `http(s)` is
never fetched: the two skip-style contexts leave the accumulator unchanged,
and the `style=` context never extends its fetch log. -/
theorem cssSteps_nonfetchable (base out : String) (fetch : String → Bool)
    (acc : String × Cache × List String) (ref : String)
    (hres : resolveCssUrl base ref = ref)
    (hhttp : isHttpUrl ref = false) :
    cssFileStep base out fetch acc ref = acc ∧
      inlineStyleStep base out fetch acc ref = acc ∧
      (styleAttrStep base out fetch acc ref).2.2 = acc.2.2 := by
  refine ⟨?_, ?_, ?_⟩
  · simp [cssFileStep, hres, hhttp]
  · simp [inlineStyleStep, hres, hhttp]
  · rw [styleAttrStep, hres]
    cases hl : cacheLookup acc.2.1 ref <;> simp [hl, hhttp]

/-- **C2 (counterexample).** The claim says a reference starting with `#`
(including one extracted from a CSS `url(...)`) is never passed to the
Fetcher.  False in the CSS contexts: the external-stylesheet pass resolves
`url(#grad)` against the base URL to `https://example.com#grad`, which
passes the `http(s)` check, and a GET is issued for it. -/
theorem C2_counterexample :
    (cssFilePass "https://example.com" "Demo.html" (fun _ => false)
        "s\x7bmask:url(#grad)\x7d" []).2.2 = ["https://example.com#grad"] := by
  decide

/-- **C2 (amended).** In the tag-attribute pass, a reference starting with
`data:`, `javascript:`, `mailto:`, `tel:` or `#` is skipped before any fetch.
In the three CSS `url(...)` contexts, a reference starting with `data:`,
`javascript:`, `mailto:` or `tel:` is likewise never passed to the Fetcher
(`urljoin` leaves such a reference unchanged and it fails the `http(s)`
check) — but a reference starting with `#` *is* resolved against the base
URL there and can be fetched (see the counterexample). -/
theorem C2_nonfetchable_never_fetched
    (base out : String) (fetch : String → Bool) (cache : Cache) (v : String)
    (hv : skipRef v = true)
    (base' out' : String) (fetch' : String → Bool)
    (acc : String × Cache × List String) (ref : String)
    (href : startsWithAny ref ["data:", "javascript:", "mailto:", "tel:"] = true) :
    attrStep base out fetch cache v = (none, cache, []) ∧
      cssFileStep base' out' fetch' acc ref = acc ∧
      inlineStyleStep base' out' fetch' acc ref = acc ∧
      (styleAttrStep base' out' fetch' acc ref).2.2 = acc.2.2 := by
  obtain ⟨hres, hhttp⟩ := resolveCss_keeps_scheme base' ref href
  obtain ⟨h1, h2, h3⟩ := cssSteps_nonfetchable base' out' fetch' acc ref hres hhttp
  exact ⟨by simp [attrStep, hv], h1, h2, h3⟩

theorem C2_nonfetchable_never_fetched_witness :
    attrStep "https://example.com" "Demo.html" (fun _ => false) []
        "javascript:void(0)" = (none, [], []) ∧
      cssFileStep "https://example.com" "Demo.html" (fun _ => false)
          ("x", [], []) "data:image/png;base64,AA==" = ("x", [], []) ∧
      inlineStyleStep "https://example.com" "Demo.html" (fun _ => false)
          ("x", [], []) "data:image/png;base64,AA==" = ("x", [], []) ∧
      (styleAttrStep "https://example.com" "Demo.html" (fun _ => false)
          ("x", [], []) "data:image/png;base64,AA==").2.2 = ([] : List String) :=
  C2_nonfetchable_never_fetched "https://example.com" "Demo.html"
    (fun _ => false) [] "javascript:void(0)" (by decide)
    "https://example.com" "Demo.html" (fun _ => false) ("x", [], [])
    "data:image/png;base64,AA==" (by decide)

/-- `download_resource` on an `http(s)` URL issues exactly one GET for that
URL and reports the transport's success. -/
theorem downloadResource_http (fetch : String → Bool) (u : String)
    (h : isHttpUrl u = true) :
    downloadResource fetch u = (fetch u, [u]) := by
  simp only [isHttpUrl, startsWithAny, List.any_cons, List.any_nil,
    Bool.or_eq_true, Bool.or_false] at h
  obtain ⟨l⟩ := u
  rcases h with h | h <;> (obtain ⟨t, ht⟩ := startsL_exists h; subst ht)
  · show downloadResource fetch ⟨"http://".data ++ t⟩ = _
    rw [downloadResource]
    simp only [show startsWithS ⟨"http://".data ++ t⟩ "//" = false from rfl,
      show startsWithS ⟨"http://".data ++ t⟩ "http://" = true from rfl,
      Bool.false_eq_true, if_false, Bool.true_or, Bool.not_true]
  · show downloadResource fetch ⟨"https://".data ++ t⟩ = _
    rw [downloadResource]
    simp only [show startsWithS ⟨"https://".data ++ t⟩ "//" = false from rfl,
      show startsWithS ⟨"https://".data ++ t⟩ "http://" = false from rfl,
      show startsWithS ⟨"https://".data ++ t⟩ "https://" = true from rfl,
      Bool.false_eq_true, if_false, Bool.false_or, Bool.true_or, Bool.not_true]

/-- **C4 (counterexample).** The claim says a protocol-relative reference
resolves to the `https:`-prefixed URL in *every* rewrite pass.  False in the
attribute pass: there a `//` reference falls into the leading-`/` branch and
is resolved by `urljoin`, inheriting the *base URL's* scheme — with base
`http://example.com`, `//cdn.example.com/a.js` resolves to
`http://cdn.example.com/a.js`, and that `http:` form is what is fetched. -/
theorem C4_counterexample :
    resolveAttrUrl "http://example.com" "//cdn.example.com/a.js" =
        "http://cdn.example.com/a.js" ∧
      (attrStep "http://example.com" "Demo.html" (fun _ => true) []
          "//cdn.example.com/a.js").2.2 = ["http://cdn.example.com/a.js"] := by
  constructor
  · rfl
  · rfl

/-- **C4 (amended).** In the three CSS `url(...)` contexts a protocol-relative
reference is prefixed `https:` outright.  In the tag-attribute pass it is
resolved by `urljoin` and inherits the base URL's scheme; with an `https`
base (such as the program's defaults), `//cdn.example.com/a.js` resolves to
`https://cdn.example.com/a.js`, and that `https:` form is the one fetched,
used as cache key, and passed to the filename synthesizer (the substituted
relative path is computed from `create_local_filename` of it). -/
theorem C4_protocol_relative
    (refCss : String) (hcss : startsWithS refCss "//" = true)
    (baseCss : String) :
    resolveCssUrl baseCss refCss = "https:" ++ refCss ∧
      resolveAttrUrl "https://www.google.com" "//cdn.example.com/a.js" =
        "https://cdn.example.com/a.js" ∧
      attrStep "https://www.google.com" "Demo.html" (fun _ => true) []
          "//cdn.example.com/a.js" =
        (some (relativeFor "Demo.html" "https://cdn.example.com/a.js"),
         [("https://cdn.example.com/a.js",
           relativeFor "Demo.html" "https://cdn.example.com/a.js")],
         ["https://cdn.example.com/a.js"]) ∧
      create_local_filename "https://cdn.example.com/a.js" "resources" =
        "resources/a_aabf1142.js" := by
  refine ⟨?_, rfl, ?_, by decide⟩
  · simp [resolveCssUrl, hcss]
  · rfl

theorem C4_protocol_relative_witness :
    resolveCssUrl "https://example.com" "//cdn.example.com/a.js" =
      "https:" ++ "//cdn.example.com/a.js" :=
  (C4_protocol_relative "//cdn.example.com/a.js" rfl "https://example.com").1

/-- **C3 (failing input).** The claim says every `url(...)` argument of a
localized stylesheet that fetches successfully is substituted by the local
relative path.  The external-CSS pass instead calls
`css_content.replace(css_url, relative_path)` with the *resolved* URL — for
a stylesheet containing the relative reference `url(/bg.png)` (base
`https://example.com`), the fetch succeeds and the cache is updated, but the
resolved URL `https://example.com/bg.png` does not occur in the text, so the
stylesheet is written back completely unchanged.  (The sibling inline passes
keep `original_css_url` precisely to substitute correctly, demoizer.py:312
and 345; the external pass at demoizer.py:290 lacks it — a slip.) -/
theorem C3_failing_input :
    cssFilePass "https://example.com" "Demo.html" (fun _ => true)
        "body\x7bbackground:url(/bg.png)\x7d" [] =
      ("body\x7bbackground:url(/bg.png)\x7d",
       [("https://example.com/bg.png", "resources/bg_e6b0dc2e.png")],
       ["https://example.com/bg.png"]) ∧
      pyReplace "body\x7bbackground:url(/bg.png)\x7d" "/bg.png"
          "resources/bg_e6b0dc2e.png" ≠ "body\x7bbackground:url(/bg.png)\x7d" := by
  constructor
  · rfl
  · decide

/-- **C5.** A reference whose fetch fails is left unchanged in its context
(the attribute keeps its original value, the CSS text is untouched), no cache
entry is recorded for its URL, and the pass continues with the remaining
references — in all four rewrite contexts.  The second conjunct shows the
attribute-pass sweep literally continuing past the failed element with the
same cache. -/
theorem C5_fetch_failure_recovered
    (base out : String) (fetch : String → Bool) (c : Cache) (v : String)
    (sel : Selector) (attr : String) (e : Element) (es : List Element)
    (hskip : skipRef v = false)
    (hvalid : validAttrUrl (resolveAttrUrl base v) = true)
    (hhttp : isHttpUrl (resolveAttrUrl base v) = true)
    (hmiss : cacheLookup c (resolveAttrUrl base v) = none)
    (hfail : fetch (resolveAttrUrl base v) = false)
    (hmatch : matchesSel sel e = true) (hhas : hasAttr e attr = true)
    (hval : getAttr e attr = some v)
    (base' out' t' r' : String) (fetch' : String → Bool) (c' : Cache)
    (l' : List String)
    (hmiss' : cacheLookup c' (resolveCssUrl base' r') = none)
    (hhttp' : isHttpUrl (resolveCssUrl base' r') = true)
    (hfail' : fetch' (resolveCssUrl base' r') = false) :
    attrStep base out fetch c v = (none, c, [resolveAttrUrl base v]) ∧
      runSelector base out fetch sel attr (e :: es) c =
        (e :: (runSelector base out fetch sel attr es c).1,
         (runSelector base out fetch sel attr es c).2.1,
         resolveAttrUrl base v :: (runSelector base out fetch sel attr es c).2.2) ∧
      cssFileStep base' out' fetch' (t', c', l') r' =
        (t', c', l' ++ [resolveCssUrl base' r']) ∧
      inlineStyleStep base' out' fetch' (t', c', l') r' =
        (t', c', l' ++ [resolveCssUrl base' r']) ∧
      styleAttrStep base' out' fetch' (t', c', l') r' =
        (t', c', l' ++ [resolveCssUrl base' r']) := by
  have h1 : attrStep base out fetch c v = (none, c, [resolveAttrUrl base v]) := by
    simp [attrStep, hskip, hvalid, hmiss, downloadResource_http _ _ hhttp, hfail]
  refine ⟨h1, ?_, ?_, ?_, ?_⟩
  · simp [runSelector, hmatch, hhas, hval, h1]
  · simp [cssFileStep, hmiss', hhttp', downloadResource_http _ _ hhttp', hfail']
  · simp [inlineStyleStep, hmiss', hhttp', downloadResource_http _ _ hhttp', hfail']
  · rw [styleAttrStep, hmiss']
    simp [hhttp', downloadResource_http _ _ hhttp', hfail']

theorem C5_fetch_failure_recovered_witness :
    attrStep "https://example.com" "Demo.html" (fun _ => false) []
        "https://img.example.com/a.png" =
      (none, [], ["https://img.example.com/a.png"]) ∧
      runSelector "https://example.com" "Demo.html" (fun _ => false)
          ⟨"img", none⟩ "src"
          [⟨"img", [("src", "https://img.example.com/a.png")], ""⟩] [] =
        ((⟨"img", [("src", "https://img.example.com/a.png")], ""⟩ : Element) ::
          (runSelector "https://example.com" "Demo.html" (fun _ => false)
            ⟨"img", none⟩ "src" [] []).1,
         (runSelector "https://example.com" "Demo.html" (fun _ => false)
           ⟨"img", none⟩ "src" [] []).2.1,
         "https://img.example.com/a.png" ::
           (runSelector "https://example.com" "Demo.html" (fun _ => false)
             ⟨"img", none⟩ "src" [] []).2.2) ∧
      cssFileStep "https://example.com" "Demo.html" (fun _ => false)
          ("x\x7by:url(https://img.example.com/a.png)\x7d", [], [])
          "https://img.example.com/a.png" =
        ("x\x7by:url(https://img.example.com/a.png)\x7d", [],
         [] ++ ["https://img.example.com/a.png"]) ∧
      inlineStyleStep "https://example.com" "Demo.html" (fun _ => false)
          ("x\x7by:url(https://img.example.com/a.png)\x7d", [], [])
          "https://img.example.com/a.png" =
        ("x\x7by:url(https://img.example.com/a.png)\x7d", [],
         [] ++ ["https://img.example.com/a.png"]) ∧
      styleAttrStep "https://example.com" "Demo.html" (fun _ => false)
          ("x\x7by:url(https://img.example.com/a.png)\x7d", [], [])
          "https://img.example.com/a.png" =
        ("x\x7by:url(https://img.example.com/a.png)\x7d", [],
         [] ++ ["https://img.example.com/a.png"]) :=
  C5_fetch_failure_recovered "https://example.com" "Demo.html" (fun _ => false)
    [] "https://img.example.com/a.png" ⟨"img", none⟩ "src"
    ⟨"img", [("src", "https://img.example.com/a.png")], ""⟩ []
    (by decide) (by decide) (by decide) (by decide) rfl (by decide) (by decide)
    (by decide)
    "https://example.com" "Demo.html" "x\x7by:url(https://img.example.com/a.png)\x7d"
    "https://img.example.com/a.png" (fun _ => false) [] []
    (by decide) (by decide) rfl

theorem strData_append (a b : String) : (a ++ b).data = a.data ++ b.data := rfl

/-- `pyJoin "resources" ·` is injective: the synthesized filename determines
the joined path. -/
theorem pyJoin_resources_inj (x y : String)
    (h : pyJoin "resources" x = pyJoin "resources" y) : x = y := by
  obtain ⟨xl⟩ := x
  obtain ⟨yl⟩ := y
  rw [pyJoin, pyJoin] at h
  by_cases hx : startsL ['/'] (⟨xl⟩ : String).data = true <;>
    by_cases hy : startsL ['/'] (⟨yl⟩ : String).data = true <;>
    simp only [hx, hy, Bool.false_eq_true, if_true, if_false,
      show (("resources" : String).data.isEmpty ||
        ("resources" : String).data.getLast? == some '/') = false from rfl] at h
  · exact h
  · have hc : startsL ['/']
        ((⟨"resources".data ++ '/' :: yl⟩ : String)).data = false := rfl
    rw [h] at hx
    rw [hc] at hx
    exact Bool.noConfusion hx
  · have hc : startsL ['/']
        ((⟨"resources".data ++ '/' :: xl⟩ : String)).data = false := rfl
    rw [← h] at hy
    rw [hc] at hy
    exact Bool.noConfusion hy
  · have hd := congrArg String.data h
    simp only [show ∀ l : List Char, (⟨l⟩ : String).data = l from fun _ => rfl]
      at hd
    have := List.append_cancel_left hd
    exact congrArg String.mk (by simpa using this)

/-- **C9 (counterexample).** The claim quantifies over *every* pair of
distinct URLs with the same stem; the spliced hash has only 8 hex characters
(32 bits), so distinct URLs can share it.  Concretely, the two URLs below
have identical final path segments on different hosts, the same synthesized
stem, and the same MD5 prefix `fd9e3c1c` — the synthesizer maps both to the
identical path `resources/a_fd9e3c1c.png`. -/
theorem C9_counterexample :
    create_local_filename "https://h5326.example.com/a.png" "resources" =
        create_local_filename "https://h88540.example.com/a.png" "resources" ∧
      ("https://h5326.example.com/a.png" : String) ≠
        "https://h88540.example.com/a.png" ∧
      demoizerFilename "https://h5326.example.com/a.png" =
        demoizerFilename "https://h88540.example.com/a.png" := by
  have h1 : create_local_filename "https://h5326.example.com/a.png"
      "resources" = "resources/a_fd9e3c1c.png" := by decide
  have h2 : create_local_filename "https://h88540.example.com/a.png"
      "resources" = "resources/a_fd9e3c1c.png" := by decide
  have h3 : demoizerFilename "https://h5326.example.com/a.png" = "a.png" := by
    decide
  have h4 : demoizerFilename "https://h88540.example.com/a.png" = "a.png" := by
    decide
  exact ⟨h1.trans h2.symm, by decide, h3.trans h4.symm⟩

/-- Splice injectivity at the string level: equal joined paths with equal
stem and extension force equal hash infixes. -/
theorem splice_inj (A B x y : String)
    (h : pyJoin "resources" (A ++ "_" ++ x ++ B) =
      pyJoin "resources" (A ++ "_" ++ y ++ B)) : x = y := by
  have h' := pyJoin_resources_inj _ _ h
  have hd := congrArg String.data h'
  simp only [strData_append, List.append_assoc] at hd
  have hd2 := List.append_cancel_left (List.append_cancel_left hd)
  have hd3 := List.append_cancel_right hd2
  obtain ⟨xl⟩ := x
  obtain ⟨yl⟩ := y
  exact congrArg String.mk hd3

/-- **C9 (amended).** For every pair of URLs that synthesize the same safe
filename (same stem and extension), the synthesizer produces distinct output
paths *whenever their 8-hex-character URL-hash prefixes differ*: the hash is
spliced between stem and extension, so differing hashes force differing
paths.  (Without that proviso the claim fails — the hash is only 32 bits, see
the counterexample.) -/
theorem C9_hash_disambiguates (u₁ u₂ : String)
    (hstem : demoizerFilename u₁ = demoizerFilename u₂)
    (hhash : urlHash8 u₁ ≠ urlHash8 u₂) :
    create_local_filename u₁ "resources" ≠ create_local_filename u₂ "resources" := by
  intro h
  apply hhash
  have h' : pyJoin "resources" ((pySplitext (demoizerFilename u₁)).1 ++ "_" ++
        urlHash8 u₁ ++ (pySplitext (demoizerFilename u₁)).2) =
      pyJoin "resources" ((pySplitext (demoizerFilename u₂)).1 ++ "_" ++
        urlHash8 u₂ ++ (pySplitext (demoizerFilename u₂)).2) := h
  rw [hstem] at h'
  exact splice_inj _ _ _ _ h'

theorem C9_hash_disambiguates_witness :
    create_local_filename "https://a.example.com/logo.png" "resources" ≠
      create_local_filename "https://b.example.com/logo.png" "resources" :=
  C9_hash_disambiguates "https://a.example.com/logo.png"
    "https://b.example.com/logo.png" (by decide) (by decide)

/-- **C10.** The attribute pass localizes the `href` of every `<link>`
element regardless of its `rel` value, because the selector list contains the
bare pair `('link', 'href')`: a `<link rel=R href=u>` whose reference
resolves, is uncached, and fetches successfully has its `href` rewritten to
the localized relative path, and its URL fetched and cached, for *any* `R`
(the hypotheses `R ≠ "icon"`, `R ≠ "shortcut icon"` only exclude the two
rel values that the later duplicate selectors `link[rel="icon"]` and
`link[rel="shortcut icon"]` would sweep a second time; those are localized
too, by the same bare selector, before the re-sweep). -/
theorem C10_link_localized_any_rel (base out r v : String)
    (fetch : String → Bool)
    (hr1 : r ≠ "icon") (hr2 : r ≠ "shortcut icon")
    (hskip : skipRef v = false)
    (hvalid : validAttrUrl (resolveAttrUrl base v) = true)
    (hhttp : isHttpUrl (resolveAttrUrl base v) = true)
    (hfetch : fetch (resolveAttrUrl base v) = true) :
    attributePass base out fetch [⟨"link", [("rel", r), ("href", v)], ""⟩] [] =
      ([⟨"link", [("rel", r),
          ("href", relativeFor out (resolveAttrUrl base v))], ""⟩],
       [(resolveAttrUrl base v, relativeFor out (resolveAttrUrl base v))],
       [resolveAttrUrl base v]) := by
  have hic : (r == "icon") = false := beq_eq_false_iff_ne.mpr hr1
  have hsc : (r == "shortcut icon") = false := beq_eq_false_iff_ne.mpr hr2
  have hstep : attrStep base out fetch [] v =
      (some (relativeFor out (resolveAttrUrl base v)),
       [(resolveAttrUrl base v, relativeFor out (resolveAttrUrl base v))],
       [resolveAttrUrl base v]) := by
    simp [attrStep, hskip, hvalid, cacheLookup,
      downloadResource_http _ _ hhttp, hfetch, cacheInsert]
  simp [attributePass, resource_selectors, runSelector, matchesSel, hasAttr,
    getAttr, cacheLookup, hstep, setAttr, cacheInsert, hic, hsc]

theorem C10_link_localized_any_rel_witness :
    attributePass "https://example.com" "Demo.html" (fun _ => true)
        [⟨"link", [("rel", "canonical"),
          ("href", "https://example.com/bg.png")], ""⟩] [] =
      ([⟨"link", [("rel", "canonical"),
          ("href", relativeFor "Demo.html"
            (resolveAttrUrl "https://example.com"
              "https://example.com/bg.png"))], ""⟩],
       [(resolveAttrUrl "https://example.com" "https://example.com/bg.png",
         relativeFor "Demo.html"
           (resolveAttrUrl "https://example.com" "https://example.com/bg.png"))],
       [resolveAttrUrl "https://example.com" "https://example.com/bg.png"]) :=
  C10_link_localized_any_rel "https://example.com" "Demo.html" "canonical"
    "https://example.com/bg.png" (fun _ => true) (by decide) (by decide)
    (by decide) (by decide) (by decide) rfl

end Demoizer
